import Mathlib

/-!
Verification development for the Telegram translator bot
(`telegram_translator_bot.py`).

The Python module is embedded shallowly:

* the two lookup tables `TRANSLATION_STYLES` and `SUPPORTED_LANGUAGES`
  become association lists keyed by strings;
* the process-wide dictionaries `user_preferences` and `user_statistics`
  become association lists keyed by the caller identity; a dictionary
  assignment is modelled by consing a fresh binding in front (reads go
  through `List.lookup`, which returns the first binding, so shadowing
  has exactly the semantics of an in-place dictionary update);
* Python floats carried in preferences (`temperature`) are modelled as
  exact rationals, and `round(x, 1)` as rounding to the nearest tenth
  with ties to even (Python 3 `round` semantics on exact values);
* the Z.AI completion call is an oracle parameter
  `gw : CompletionRequest → Except String String`; `Except.error` is a
  raised exception caught by the `try` block of `translate_text`;
* an uncaught Python `KeyError` (indexing a dict with a missing key) is
  modelled as `Except.error key` escaping the handler;
* `datetime.now().isoformat()` timestamps are an opaque `now : Nat`
  supplied by the caller;
* `Config.ENABLE_STATS`, `Config.MAX_MESSAGE_LENGTH` and the
  initialization state of the Z.AI client are explicit parameters.
-/

/-- One entry of `TRANSLATION_STYLES`: display name, description, system
prompt and suggested temperature. -/
structure StyleDef where
  name : String
  description : String
  system_prompt : String
  temperature : ℚ
deriving DecidableEq

/-- The `professional` style entry of `TRANSLATION_STYLES`. -/
def professional_style : StyleDef :=
  { name := "💼 Chuyên nghiệp"
    description := "Phong cách trang trọng, chính xác về thuật ngữ"
    system_prompt := "Bạn là một dịch giả chuyên nghiệp với kinh nghiệm cao. Dịch văn bản với phong cách trang trọng, chính xác về mặt thuật ngữ chuyên môn."
    temperature := 0.3 }

/-- The `casual` style entry of `TRANSLATION_STYLES`. -/
def casual_style : StyleDef :=
  { name := "😊 Thân thiện"
    description := "Phong cách tự nhiên, dễ hiểu"
    system_prompt := "Bạn là một dịch giả thân thiện. Dịch văn bản với phong cách tự nhiên, dễ hiểu, gần gũi với người đọc."
    temperature := 0.5 }

/-- The `academic` style entry of `TRANSLATION_STYLES`. -/
def academic_style : StyleDef :=
  { name := "🎓 Học thuật"
    description := "Chính xác cao, giữ thuật ngữ chuyên ngành"
    system_prompt := "Bạn là một dịch giả học thuật chuyên sâu. Dịch văn bản với độ chính xác cao, giữ nguyên thuật ngữ chuyên ngành khi cần thiết, kèm giải thích."
    temperature := 0.2 }

/-- The `creative` style entry of `TRANSLATION_STYLES`. -/
def creative_style : StyleDef :=
  { name := "🎨 Sáng tạo"
    description := "Linh hoạt, giữ thần văn bản"
    system_prompt := "Bạn là một dịch giả sáng tạo. Dịch văn bản một cách linh hoạt, sáng tạo nhưng vẫn giữ được tinh thần và ý nghĩa của văn bản gốc."
    temperature := 0.7 }

/-- The `technical` style entry of `TRANSLATION_STYLES`. -/
def technical_style : StyleDef :=
  { name := "⚙️ Kỹ thuật"
    description := "Chuyên cho tài liệu kỹ thuật, IT"
    system_prompt := "Bạn là một dịch giả chuyên về kỹ thuật và công nghệ. Dịch chính xác các thuật ngữ kỹ thuật, giữ nguyên code, commands và technical terms khi cần."
    temperature := 0.2 }

/-- `TRANSLATION_STYLES`: the five fixed translation styles, in source
order. -/
def TRANSLATION_STYLES : List (String × StyleDef) :=
  [("professional", professional_style),
   ("casual", casual_style),
   ("academic", academic_style),
   ("creative", creative_style),
   ("technical", technical_style)]

/-- `SUPPORTED_LANGUAGES`: the ten fixed target languages (code ↦
display name), in source order. -/
def SUPPORTED_LANGUAGES : List (String × String) :=
  [("vi", "🇻🇳 Tiếng Việt"),
   ("en", "🇬🇧 English"),
   ("zh", "🇨🇳 中文"),
   ("ja", "🇯🇵 日本語"),
   ("ko", "🇰🇷 한국어"),
   ("fr", "🇫🇷 Français"),
   ("de", "🇩🇪 Deutsch"),
   ("es", "🇪🇸 Español"),
   ("ru", "🇷🇺 Русский"),
   ("th", "🇹🇭 ไทย")]

/-- A per-user preference record (`user_preferences[user_id]`), with the
fields in source order. -/
structure Prefs where
  style : String
  temperature : ℚ
  format_preserve : Bool
  add_notes : Bool
  target_language : String
  show_original : Bool
deriving DecidableEq

/-- `DEFAULT_PREFERENCES` from the source. -/
def DEFAULT_PREFERENCES : Prefs :=
  { style := "professional"
    temperature := 0.3
    format_preserve := true
    add_notes := false
    target_language := "vi"
    show_original := false }

/-- Default of `Config.MAX_MESSAGE_LENGTH` (env `MAX_MESSAGE_LENGTH`,
default string `4000`). -/
def DEFAULT_MAX_MESSAGE_LENGTH : Nat := 4000

/-- Dictionary assignment `d[k] = v`: the new binding shadows earlier
ones; reads go through `List.lookup` which returns the first binding. -/
def dset (l : List (Nat × α)) (k : Nat) (v : α) : List (Nat × α) :=
  (k, v) :: l

/-- The preference record a read of `user_preferences` would yield for
`uid` (the stored record, or the defaults if none is stored yet). -/
def current_prefs (store : List (Nat × Prefs)) (uid : Nat) : Prefs :=
  (store.lookup uid).getD DEFAULT_PREFERENCES

/-- `get_user_prefs`: create-on-read with defaults; returns the (possibly
extended) store together with the caller's record. -/
def get_user_prefs (store : List (Nat × Prefs)) (uid : Nat) :
    List (Nat × Prefs) × Prefs :=
  match store.lookup uid with
  | some p => (store, p)
  | none => (dset store uid DEFAULT_PREFERENCES, DEFAULT_PREFERENCES)

/-- A per-user statistics record (`user_statistics[user_id]`), with
timestamps as opaque numbers. -/
structure Stats where
  translations : Nat
  commands : Nat
  first_use : Nat
  last_use : Nat
deriving DecidableEq

/-- `update_user_stats`: no-op when statistics are disabled; otherwise
create the record on first use, bump the counter selected by `action`,
and stamp `last_use`. -/
def update_user_stats (enable : Bool) (stats : List (Nat × Stats))
    (uid : Nat) (action : String) (now : Nat) : List (Nat × Stats) :=
  if enable = false then stats
  else
    dset stats uid
      (let s := (stats.lookup uid).getD { translations := 0, commands := 0, first_use := now, last_use := now }
       let s1 :=
         if action == "translation" then { s with translations := s.translations + 1 }
         else if action == "command" then { s with commands := s.commands + 1 }
         else s
       { s1 with last_use := now })

/-- The process state: the two global dictionaries. -/
structure BotState where
  prefs : List (Nat × Prefs)
  stats : List (Nat × Stats)
deriving DecidableEq

/-- Rounding to the nearest integer with ties to even: Python 3
`round(q)` on an exact rational value. -/
def round_half_even (q : ℚ) : ℤ :=
  if q - ⌊q⌋ < 1/2 then ⌊q⌋
  else if 1/2 < q - ⌊q⌋ then ⌊q⌋ + 1
  else if ⌊q⌋ % 2 = 0 then ⌊q⌋ else ⌊q⌋ + 1

/-- Python `round(q, 1)` on an exact rational value: round to the
nearest tenth. -/
def round1 (q : ℚ) : ℚ := (round_half_even (10 * q) : ℚ) / 10

/-- Outcome of the `/temp` command when a numeric argument was given. -/
inductive TempOutcome where
  | accepted : ℚ → TempOutcome
  | out_of_range : TempOutcome
deriving DecidableEq

/-- `temp_command`, for a numeric argument `temp`: bump the command
counter, then either store `round(temp, 1)` (argument within
`0.1 ≤ temp ≤ 1.0`) or reply with the out-of-range warning leaving the
preferences untouched. -/
def temp_command (enable_stats : Bool) (st : BotState) (uid : Nat)
    (temp : ℚ) (now : Nat) : BotState × TempOutcome :=
  let stats1 := update_user_stats enable_stats st.stats uid "command" now
  if 0.1 ≤ temp ∧ temp ≤ 1.0 then
    (⟨dset (get_user_prefs st.prefs uid).1 uid
        { (get_user_prefs st.prefs uid).2 with temperature := round1 temp },
      stats1⟩,
     TempOutcome.accepted temp)
  else
    (⟨st.prefs, stats1⟩, TempOutcome.out_of_range)

/-- The `style_<key>` branch of `button_callback` (for
`key ≠ "info"`): store the parsed key into the caller's record, then
index `TRANSLATION_STYLES` with it for the confirmation message.
`Except.ok` carries the display name used in the confirmation;
`Except.error key` is the uncaught `KeyError` raised by
`TRANSLATION_STYLES[style]` when the key is unknown — note that it is
raised only after the record was already mutated. -/
def style_callback (store : List (Nat × Prefs)) (uid : Nat) (key : String) :
    List (Nat × Prefs) × Except String String :=
  let store1 :=
    dset (get_user_prefs store uid).1 uid
      { (get_user_prefs store uid).2 with style := key }
  match TRANSLATION_STYLES.lookup key with
  | some info => (store1, Except.ok info.name)
  | none => (store1, Except.error key)

/-- `reset_command` (and the identical `reset_settings` callback
branch): bump the command counter and overwrite the caller's record
with a copy of the defaults. -/
def reset_command (enable_stats : Bool) (st : BotState) (uid : Nat)
    (now : Nat) : BotState :=
  ⟨dset st.prefs uid DEFAULT_PREFERENCES,
   update_user_stats enable_stats st.stats uid "command" now⟩

/-- The request assembled for
`zai_client.chat.completions.create(...)`. -/
structure CompletionRequest where
  model : String
  system : String
  user : String
  temperature : ℚ
  max_tokens : Nat
deriving DecidableEq

/-- The user-level prompt built in `translate_text` (lines 586-597):
`" ".join(prompt_parts)` with the optional directives included exactly
when the corresponding flags are set; the target display name comes
from `SUPPORTED_LANGUAGES.get(code, 'Tiếng Việt')`. -/
def build_prompt (prefs : Prefs) (text : String) : String :=
  String.intercalate " "
    (["Translate the following text to " ++
        ((SUPPORTED_LANGUAGES.lookup prefs.target_language).getD "Tiếng Việt") ++ "."] ++
     (if prefs.format_preserve then
        ["Preserve all formatting (bold, italic, line breaks, bullet points, etc.)."]
      else []) ++
     (if prefs.add_notes then
        ["Add brief explanatory notes in parentheses for difficult terms if needed."]
      else []) ++
     ["Return only the translation without any additional explanation."] ++
     ["\nText to translate:\n" ++ text])

/-- The request built by `translate_text` before the completion call:
`TRANSLATION_STYLES[prefs['style']]` is a direct index (an unknown style
key raises `KeyError`, modelled as `Except.error`), the system prompt is
the style's verbatim, and `max_tokens` is `Config.MAX_MESSAGE_LENGTH`. -/
def build_request (max_tokens : Nat) (prefs : Prefs) (text : String) :
    Except String CompletionRequest :=
  match TRANSLATION_STYLES.lookup prefs.style with
  | none => Except.error prefs.style
  | some info =>
      Except.ok
        { model := "glm-4.5-flash"
          system := info.system_prompt
          user := build_prompt prefs text
          temperature := prefs.temperature
          max_tokens := max_tokens }

/-- `translate_text`: returns the updated preference store (its
`get_user_prefs` call may create the record) and either
`Except.error key` (uncaught `KeyError` from the style lookup, which
sits outside the `try` block) or `Except.ok (text, success)` — the
`(translated_text, True)` of a successful call, or the
`("❌ Lỗi khi dịch: " + str(e), False)` produced by the `except`
clause catching the gateway failure `e`. -/
def translate_text (zai_ok : Bool) (gw : CompletionRequest → Except String String)
    (max_tokens : Nat) (store : List (Nat × Prefs)) (uid : Nat) (text : String) :
    List (Nat × Prefs) × Except String (String × Bool) :=
  if zai_ok = false then
    (store, Except.ok ("❌ Z.AI client chưa được khởi tạo. Kiểm tra API key!", false))
  else
    match build_request max_tokens (get_user_prefs store uid).2 text with
    | Except.error k => ((get_user_prefs store uid).1, Except.error k)
    | Except.ok req =>
        match gw req with
        | Except.ok t => ((get_user_prefs store uid).1, Except.ok (t, true))
        | Except.error e =>
            ((get_user_prefs store uid).1,
             Except.ok ("❌ Lỗi khi dịch: " ++ e, false))

/-- Python `s.split()[0]` on a string with no leading whitespace: the
characters before the first space. -/
def headToken (s : String) : String :=
  String.mk (s.data.takeWhile (fun c => c ≠ ' '))

/-- The response assembly of `handle_message` (lines 656-677).  Both
catalogs are indexed directly with the stored keys (an unknown key is an
uncaught `KeyError`, modelled as `Except.error key`); on success the
parts are joined with newlines and the original text is appended only
when `show_original` is set; on failure the reply is the error text
returned by `translate_text`, unchanged. -/
def format_response (prefs : Prefs) (text translated : String)
    (success : Bool) : Except String String :=
  match TRANSLATION_STYLES.lookup prefs.style with
  | none => Except.error prefs.style
  | some info =>
      match SUPPORTED_LANGUAGES.lookup prefs.target_language with
      | none => Except.error prefs.target_language
      | some lang =>
          if success then
            Except.ok (String.intercalate "\n"
              ([headToken info.name ++ " *Phong cách:* " ++ info.name,
                headToken lang ++ " *Ngôn ngữ:* " ++ lang,
                "━━━━━━━━━━━━━━━━━━━━",
                translated] ++
               (if prefs.show_original then
                  ["\n━━━━━━━━━━━━━━━━━━━━",
                   "📄 *Bản gốc:*",
                   "_" ++ text ++ "_"]
                else [])))
          else Except.ok translated

/-- The rejection message of the length guard, carrying the configured
maximum and the actual length. -/
def too_long_message (limit actual : Nat) : String :=
  "⚠️ Văn bản quá dài! Tối đa " ++ toString limit ++ " ký tự.\n" ++
  "Văn bản của bạn: " ++ toString actual ++ " ký tự."

/-- What `handle_message` sends back to the caller. -/
inductive Outcome where
  | tooLong : Nat → Nat → String → Outcome
  | reply : String → Outcome
deriving DecidableEq

/-- `handle_message`: length guard first (rejecting without touching any
state and without consulting the gateway), then the statistics update,
then the translation and the response assembly.  `Except.error` in the
result is an uncaught `KeyError` escaping to the dispatcher. -/
def handle_message (enable_stats : Bool) (max_len : Nat) (zai_ok : Bool)
    (gw : CompletionRequest → Except String String) (st : BotState)
    (uid : Nat) (text : String) (now : Nat) :
    BotState × Except String Outcome :=
  if text.length > max_len then
    (st, Except.ok (Outcome.tooLong max_len text.length
      (too_long_message max_len text.length)))
  else
    match translate_text zai_ok gw max_len st.prefs uid text with
    | (store1, Except.error k) =>
        (⟨store1, update_user_stats enable_stats st.stats uid "translation" now⟩,
         Except.error k)
    | (store1, Except.ok (translated, success)) =>
        match format_response (get_user_prefs store1 uid).2 text translated success with
        | Except.error k =>
            (⟨(get_user_prefs store1 uid).1,
              update_user_stats enable_stats st.stats uid "translation" now⟩,
             Except.error k)
        | Except.ok resp =>
            (⟨(get_user_prefs store1 uid).1,
              update_user_stats enable_stats st.stats uid "translation" now⟩,
             Except.ok (Outcome.reply resp))

/-! ### Basic store lemmas -/

/-- Reading back the binding just written. -/
theorem lookup_dset_self (l : List (Nat × α)) (k : Nat) (v : α) :
    (dset l k v).lookup k = some v := by
  simp [dset, List.lookup]

/-- Writing one key leaves every other key unchanged. -/
theorem lookup_dset_ne (l : List (Nat × α)) (k j : Nat) (v : α) (h : j ≠ k) :
    (dset l k v).lookup j = l.lookup j := by
  simp [dset, List.lookup, beq_false_of_ne h]

/-- The record `get_user_prefs` hands out is the one `current_prefs`
describes. -/
theorem get_user_prefs_snd (store : List (Nat × Prefs)) (uid : Nat) :
    (get_user_prefs store uid).2 = current_prefs store uid := by
  unfold get_user_prefs current_prefs
  cases h : store.lookup uid <;> simp [h]

/-- The create-on-read of `get_user_prefs` does not change what a later
read of the same caller sees. -/
theorem current_prefs_get_fst (store : List (Nat × Prefs)) (uid : Nat) :
    current_prefs (get_user_prefs store uid).1 uid = current_prefs store uid := by
  unfold get_user_prefs current_prefs
  cases h : store.lookup uid <;> simp [h, lookup_dset_self]

/-! ### Claim theorems -/

/-- C1: for a temperature argument inside `[0.1, 1.0]` the `/temp`
handler accepts and afterwards the stored temperature is the argument
rounded to one decimal place; for an argument outside the range it
reports out-of-range and the preference store is unchanged. -/
theorem temp_command_range_spec (es : Bool) (st : BotState) (uid : Nat)
    (temp : ℚ) (now : Nat) :
    ((0.1 ≤ temp ∧ temp ≤ 1.0) →
      (temp_command es st uid temp now).2 = TempOutcome.accepted temp ∧
      (current_prefs (temp_command es st uid temp now).1.prefs uid).temperature
        = round1 temp) ∧
    (¬ (0.1 ≤ temp ∧ temp ≤ 1.0) →
      (temp_command es st uid temp now).2 = TempOutcome.out_of_range ∧
      (temp_command es st uid temp now).1.prefs = st.prefs) := by
  constructor
  · intro h
    simp [temp_command, h, current_prefs, lookup_dset_self]
  · intro h
    simp [temp_command, h]

/-- Witness for C1: `0.35` is accepted and stored as `0.4`; `1.5` is
rejected leaving the (empty) store unchanged. -/
theorem temp_command_range_spec_witness :
    (current_prefs (temp_command true ⟨[], []⟩ 7 0.35 0).1.prefs 7).temperature
        = 0.4 ∧
    (temp_command true ⟨[], []⟩ 7 1.5 0).1.prefs = [] := by
  constructor
  · have h := ((temp_command_range_spec true ⟨[], []⟩ 7 0.35 0).1 (by norm_num)).2
    rw [h]
    norm_num [round1, round_half_even]
  · exact ((temp_command_range_spec true ⟨[], []⟩ 7 1.5 0).2 (by norm_num)).2

/-- C2 counterexample: the callback `style_bogus` mutates the stored
record (the style key becomes `bogus`) even though `bogus` is not in
the catalog — the claim that the record remains entirely unchanged is
false. -/
theorem style_callback_mutates_on_unknown_key :
    TRANSLATION_STYLES.lookup "bogus" = none ∧
    (current_prefs [(1, DEFAULT_PREFERENCES)] 1).style = "professional" ∧
    (current_prefs (style_callback [(1, DEFAULT_PREFERENCES)] 1 "bogus").1 1).style
      = "bogus" := by
  refine ⟨rfl, rfl, rfl⟩

/-- C2 amended: for a style key not in the catalog, the `style_<key>`
callback branch first overwrites the caller's stored style key with the
unknown key and only then fails with an uncaught key-lookup error (not
a reported `UnknownStyle`); the partial update is visible — the
resulting record is the old record with the style field replaced. -/
theorem style_callback_unknown_key_spec (store : List (Nat × Prefs))
    (uid : Nat) (key : String)
    (h : TRANSLATION_STYLES.lookup key = none) :
    (style_callback store uid key).2 = Except.error key ∧
    current_prefs (style_callback store uid key).1 uid
      = { current_prefs store uid with style := key } := by
  constructor
  · simp [style_callback, h]
  · simp [style_callback, h, current_prefs, lookup_dset_self, get_user_prefs_snd]

/-- Witness for C2's amended theorem at the counterexample input. -/
theorem style_callback_unknown_key_spec_witness :
    (style_callback [(1, DEFAULT_PREFERENCES)] 1 "bogus").2 = Except.error "bogus" ∧
    current_prefs (style_callback [(1, DEFAULT_PREFERENCES)] 1 "bogus").1 1
      = { DEFAULT_PREFERENCES with style := "bogus" } := by
  have h := style_callback_unknown_key_spec [(1, DEFAULT_PREFERENCES)] 1 "bogus" rfl
  exact ⟨h.1, h.2⟩

/-- C7: reset followed by get returns exactly the default record,
whatever the prior mutation history (any store contents). -/
theorem reset_then_get_defaults (es : Bool) (st : BotState) (uid : Nat)
    (now : Nat) :
    (get_user_prefs (reset_command es st uid now).prefs uid).2 =
      { style := "professional"
        temperature := 0.3
        format_preserve := true
        add_notes := false
        target_language := "vi"
        show_original := false } := by
  simp [reset_command, get_user_prefs, lookup_dset_self, DEFAULT_PREFERENCES]

/-- C3: a message strictly longer than the configured maximum is
rejected by the length guard with an indication carrying the configured
maximum and the actual length, no state is touched, and the result does
not depend on the gateway at all (no request is built or sent). -/
theorem handle_message_length_guard (es : Bool) (maxl : Nat) (zk : Bool)
    (gw gw2 : CompletionRequest → Except String String) (st : BotState)
    (uid : Nat) (text : String) (now : Nat) (h : text.length > maxl) :
    handle_message es maxl zk gw st uid text now =
      (st, Except.ok (Outcome.tooLong maxl text.length
        (too_long_message maxl text.length))) ∧
    handle_message es maxl zk gw st uid text now =
      handle_message es maxl zk gw2 st uid text now := by
  constructor <;> simp [handle_message, h]

/-- Witness for C3: input of length 4001 with maximum 4000 is rejected
before any gateway call, reporting limit 4000 and actual length 4001. -/
theorem handle_message_length_guard_witness :
    (String.mk (List.replicate 4001 'a')).length = 4001 ∧
    handle_message true 4000 true (fun _ => Except.error "net down") ⟨[], []⟩ 1
        (String.mk (List.replicate 4001 'a')) 0 =
      (⟨[], []⟩, Except.ok (Outcome.tooLong 4000 4001 (too_long_message 4000 4001))) := by
  have hlen : (String.mk (List.replicate 4001 'a')).length = 4001 := by
    show (List.replicate 4001 'a').length = 4001
    rw [List.length_replicate]
  have h := (handle_message_length_guard true 4000 true
    (fun _ => Except.error "net down") (fun _ => Except.error "net down")
    ⟨[], []⟩ 1 (String.mk (List.replicate 4001 'a')) 0
    (by rw [gt_iff_lt, hlen]; norm_num)).1
  rw [hlen] at h
  exact ⟨hlen, h⟩

/-- C4: with a known style key, the built request carries the style's
system prompt verbatim, the user instruction is the space-separated
concatenation — translation directive with the resolved target name,
then the formatting directive exactly when `format_preserve`, then the
notes directive exactly when `add_notes`, then the
translation-only directive, then the labelled, newline-prefixed input
text — and the generation parameters are the stored temperature and the
configured `max_tokens` ceiling. -/
theorem build_request_assembly (maxl : Nat) (prefs : Prefs) (text : String)
    (info : StyleDef)
    (hs : TRANSLATION_STYLES.lookup prefs.style = some info) :
    build_request maxl prefs text = Except.ok
      { model := "glm-4.5-flash"
        system := info.system_prompt
        user :=
          "Translate the following text to " ++
            ((SUPPORTED_LANGUAGES.lookup prefs.target_language).getD "Tiếng Việt") ++
            "." ++
          (if prefs.format_preserve then
            " Preserve all formatting (bold, italic, line breaks, bullet points, etc.)."
           else "") ++
          (if prefs.add_notes then
            " Add brief explanatory notes in parentheses for difficult terms if needed."
           else "") ++
          " Return only the translation without any additional explanation. " ++
          ("\nText to translate:\n" ++ text)
        temperature := prefs.temperature
        max_tokens := maxl } := by
  rcases prefs with ⟨s, tp, fp, an, tl, so⟩
  cases fp <;> cases an <;>
    simp [build_request, build_prompt, hs, String.intercalate,
      String.intercalate.go, String.append_assoc]

/-- Witness for C4: the default preferences on the text `Hello world`
produce the expected request verbatim. -/
theorem build_request_assembly_witness :
    build_request DEFAULT_MAX_MESSAGE_LENGTH DEFAULT_PREFERENCES "Hello world" =
      Except.ok
        { model := "glm-4.5-flash"
          system := professional_style.system_prompt
          user := "Translate the following text to 🇻🇳 Tiếng Việt. Preserve all formatting (bold, italic, line breaks, bullet points, etc.). Return only the translation without any additional explanation. \nText to translate:\nHello world"
          temperature := 0.3
          max_tokens := 4000 } := by
  have h := build_request_assembly DEFAULT_MAX_MESSAGE_LENGTH DEFAULT_PREFERENCES
    "Hello world" professional_style rfl
  rw [h]
  rfl

/-- C8: with a known style key but a target-language code absent from
the catalog, the request builder does not fail — it resolves the target
display name to the fixed fallback `Tiếng Việt` — and the rest of the
request does not depend on which unknown code is stored. -/
theorem build_request_stale_language (maxl : Nat) (prefs : Prefs)
    (text : String) (info : StyleDef) (c2 : String)
    (hs : TRANSLATION_STYLES.lookup prefs.style = some info)
    (hl : SUPPORTED_LANGUAGES.lookup prefs.target_language = none)
    (hl2 : SUPPORTED_LANGUAGES.lookup c2 = none) :
    build_request maxl prefs text = Except.ok
      { model := "glm-4.5-flash"
        system := info.system_prompt
        user :=
          "Translate the following text to " ++ "Tiếng Việt" ++ "." ++
          (if prefs.format_preserve then
            " Preserve all formatting (bold, italic, line breaks, bullet points, etc.)."
           else "") ++
          (if prefs.add_notes then
            " Add brief explanatory notes in parentheses for difficult terms if needed."
           else "") ++
          " Return only the translation without any additional explanation. " ++
          ("\nText to translate:\n" ++ text)
        temperature := prefs.temperature
        max_tokens := maxl } ∧
    build_request maxl { prefs with target_language := c2 } text =
      build_request maxl prefs text := by
  constructor
  · rcases prefs with ⟨s, tp, fp, an, tl, so⟩
    cases fp <;> cases an <;>
      simp [build_request, build_prompt, hs, hl, String.intercalate,
        String.intercalate.go, String.append_assoc]
  · simp [build_request, build_prompt, hs, hl, hl2]

/-- Witness for C8: preferences holding the stale code `xx` still build
a request, with the fallback display name in the directive. -/
theorem build_request_stale_language_witness :
    build_request 4000 { DEFAULT_PREFERENCES with target_language := "xx" } "Hi" =
      Except.ok
        { model := "glm-4.5-flash"
          system := professional_style.system_prompt
          user := "Translate the following text to Tiếng Việt. Preserve all formatting (bold, italic, line breaks, bullet points, etc.). Return only the translation without any additional explanation. \nText to translate:\nHi"
          temperature := 0.3
          max_tokens := 4000 } ∧
    build_request 4000 { DEFAULT_PREFERENCES with target_language := "yy" } "Hi" =
      build_request 4000 { DEFAULT_PREFERENCES with target_language := "xx" } "Hi" := by
  have h := build_request_stale_language 4000
    { DEFAULT_PREFERENCES with target_language := "xx" } "Hi"
    professional_style "yy" rfl rfl rfl
  refine ⟨by rw [h.1]; rfl, ?_⟩
  have h2 := h.2
  simpa using h2

/-- C10: the response assembly indexes both catalogs directly with the
stored keys, so with a target-language code absent from the catalog it
fails with an uncaught key-lookup error instead of producing a
formatted reply — on the very same preferences for which the request
builder succeeds by falling back to the default display name. -/
theorem format_response_strict_lookup (maxl : Nat) (prefs : Prefs)
    (text translated : String) (success : Bool) (info : StyleDef)
    (hs : TRANSLATION_STYLES.lookup prefs.style = some info)
    (hl : SUPPORTED_LANGUAGES.lookup prefs.target_language = none) :
    format_response prefs text translated success =
      Except.error prefs.target_language ∧
    build_request maxl prefs text = Except.ok
      { model := "glm-4.5-flash"
        system := info.system_prompt
        user := build_prompt prefs text
        temperature := prefs.temperature
        max_tokens := maxl } := by
  constructor
  · simp [format_response, hs, hl]
  · simp [build_request, hs]

/-- Witness for C10: stored code `xx` makes the formatter fail while
the builder still succeeds. -/
theorem format_response_strict_lookup_witness :
    format_response { DEFAULT_PREFERENCES with target_language := "xx" } "T" "X" true =
      Except.error "xx" ∧
    build_request 4000 { DEFAULT_PREFERENCES with target_language := "xx" } "T" =
      Except.ok
        { model := "glm-4.5-flash"
          system := professional_style.system_prompt
          user := build_prompt { DEFAULT_PREFERENCES with target_language := "xx" } "T"
          temperature := 0.3
          max_tokens := 4000 } := by
  have h := format_response_strict_lookup 4000
    { DEFAULT_PREFERENCES with target_language := "xx" } "T" "X" true
    professional_style rfl rfl
  exact ⟨h.1, h.2⟩

/-- The stats component of the handler state after an accepted message
is the statistics update made before the translation — whatever the
gateway and the formatter then do. -/
theorem handle_message_stats_eq (es : Bool) (maxl : Nat) (zk : Bool)
    (gw : CompletionRequest → Except String String) (st : BotState)
    (uid : Nat) (text : String) (now : Nat) (h : ¬ text.length > maxl) :
    (handle_message es maxl zk gw st uid text now).1.stats =
      update_user_stats es st.stats uid "translation" now := by
  rcases htr : translate_text zk gw maxl st.prefs uid text with ⟨s1, r⟩
  rcases r with k | ⟨t, b⟩
  · simp [handle_message, h, htr]
  · cases hf : format_response (get_user_prefs s1 uid).2 text t b <;>
      simp [handle_message, h, htr, hf]

/-- C5: on a successful gateway result with known stored keys, the
reply is, in fixed order, the style label line, the language label
line, a divider line and the translated body verbatim; the section made
of a second divider, the labelled header and the original input text is
appended exactly when `show_original` is set. -/
theorem format_response_success_layout (prefs : Prefs)
    (text translated : String) (info : StyleDef) (lang : String)
    (hs : TRANSLATION_STYLES.lookup prefs.style = some info)
    (hl : SUPPORTED_LANGUAGES.lookup prefs.target_language = some lang) :
    format_response prefs text translated true = Except.ok
      (headToken info.name ++ " *Phong cách:* " ++ info.name ++ "\n" ++
       headToken lang ++ " *Ngôn ngữ:* " ++ lang ++ "\n" ++
       "━━━━━━━━━━━━━━━━━━━━" ++ "\n" ++
       translated ++
       (if prefs.show_original then
          "\n" ++ "\n━━━━━━━━━━━━━━━━━━━━" ++ "\n" ++
          "📄 *Bản gốc:*" ++ "\n" ++ ("_" ++ text ++ "_")
        else "")) := by
  cases hso : prefs.show_original <;>
    simp [format_response, hs, hl, hso, String.intercalate,
      String.intercalate.go, String.append_assoc]

/-- Witness for C5: concrete preferences with `show_original` set
include the original after the second divider and header; the same
without the flag produce exactly the prefix without it. -/
theorem format_response_success_layout_witness :
    format_response { DEFAULT_PREFERENCES with show_original := true } "Hello" "Xin chào" true =
      Except.ok ("💼 *Phong cách:* 💼 Chuyên nghiệp\n🇻🇳 *Ngôn ngữ:* 🇻🇳 Tiếng Việt\n━━━━━━━━━━━━━━━━━━━━\nXin chào" ++
        ("\n\n━━━━━━━━━━━━━━━━━━━━\n📄 *Bản gốc:*\n_" ++ ("Hello" ++ "_"))) ∧
    format_response DEFAULT_PREFERENCES "Hello" "Xin chào" true =
      Except.ok ("💼 *Phong cách:* 💼 Chuyên nghiệp\n🇻🇳 *Ngôn ngữ:* 🇻🇳 Tiếng Việt\n━━━━━━━━━━━━━━━━━━━━\n" ++ "Xin chào") := by
  constructor
  · have h := format_response_success_layout
      { DEFAULT_PREFERENCES with show_original := true } "Hello" "Xin chào"
      professional_style "🇻🇳 Tiếng Việt" rfl rfl
    rw [h]
    rfl
  · have h := format_response_success_layout DEFAULT_PREFERENCES "Hello" "Xin chào"
      professional_style "🇻🇳 Tiếng Việt" rfl rfl
    rw [h]
    rfl

/-- C6: when the completion call fails, the failure is caught at the
gateway boundary and the whole handler replies with the single error
line built from the gateway's cause string — fully determined by the
cause, carrying no translation content — and the result is a normal
reply, not an escaping exception. -/
theorem gateway_failure_spec (es : Bool) (maxl : Nat)
    (gw : CompletionRequest → Except String String) (st : BotState)
    (uid : Nat) (text : String) (now : Nat) (cause : String)
    (info : StyleDef) (lang : String)
    (hlen : ¬ text.length > maxl)
    (hs : TRANSLATION_STYLES.lookup (current_prefs st.prefs uid).style = some info)
    (hl : SUPPORTED_LANGUAGES.lookup (current_prefs st.prefs uid).target_language = some lang)
    (hgw : ∀ req, gw req = Except.error cause) :
    (handle_message es maxl true gw st uid text now).2 =
      Except.ok (Outcome.reply ("❌ Lỗi khi dịch: " ++ cause)) := by
  have hb : build_request maxl (get_user_prefs st.prefs uid).2 text =
      Except.ok
        { model := "glm-4.5-flash"
          system := info.system_prompt
          user := build_prompt (get_user_prefs st.prefs uid).2 text
          temperature := (get_user_prefs st.prefs uid).2.temperature
          max_tokens := maxl } := by
    rw [get_user_prefs_snd]
    simp [build_request, hs]
  have htr : translate_text true gw maxl st.prefs uid text =
      ((get_user_prefs st.prefs uid).1,
       Except.ok ("❌ Lỗi khi dịch: " ++ cause, false)) := by
    simp [translate_text, hb, hgw]
  have hp : (get_user_prefs (get_user_prefs st.prefs uid).1 uid).2
      = current_prefs st.prefs uid := by
    rw [get_user_prefs_snd, current_prefs_get_fst]
  have hf : format_response (get_user_prefs (get_user_prefs st.prefs uid).1 uid).2
      text ("❌ Lỗi khi dịch: " ++ cause) false =
      Except.ok ("❌ Lỗi khi dịch: " ++ cause) := by
    rw [hp]
    simp [format_response, hs, hl]
  simp [handle_message, hlen, htr, hf]

/-- Witness for C6: a fresh caller with default preferences and a
gateway that always fails with cause `timeout` gets exactly the single
formatted error line. -/
theorem gateway_failure_spec_witness :
    (handle_message true 4000 true (fun _ => Except.error "timeout")
        ⟨[], []⟩ 9 "Hello" 0).2 =
      Except.ok (Outcome.reply ("❌ Lỗi khi dịch: " ++ "timeout")) := by
  exact gateway_failure_spec true 4000 (fun _ => Except.error "timeout")
    ⟨[], []⟩ 9 "Hello" 0 "timeout" professional_style "🇻🇳 Tiếng Việt"
    (by decide) rfl rfl (fun _ => rfl)

/-- C9: with statistics enabled, a message passing the length guard
bumps the caller's translation counter and stamps `last_use` before the
gateway is consulted — the statistics outcome is the same whatever the
gateway returns — while a message rejected by the length guard leaves
the statistics store untouched. -/
theorem stats_update_policy (maxl : Nat) (zk : Bool)
    (gw gw2 : CompletionRequest → Except String String) (st : BotState)
    (uid : Nat) (text : String) (now : Nat) :
    (text.length > maxl →
      (handle_message true maxl zk gw st uid text now).1.stats = st.stats) ∧
    (¬ text.length > maxl →
      ((handle_message true maxl zk gw st uid text now).1.stats.lookup uid =
        some { translations :=
                 ((st.stats.lookup uid).getD
                   { translations := 0, commands := 0, first_use := now, last_use := now }).translations + 1
               commands :=
                 ((st.stats.lookup uid).getD
                   { translations := 0, commands := 0, first_use := now, last_use := now }).commands
               first_use :=
                 ((st.stats.lookup uid).getD
                   { translations := 0, commands := 0, first_use := now, last_use := now }).first_use
               last_use := now }) ∧
      (handle_message true maxl zk gw st uid text now).1.stats =
        (handle_message true maxl zk gw2 st uid text now).1.stats) := by
  refine ⟨fun h => by simp [handle_message, h], fun h => ⟨?_, ?_⟩⟩
  · rw [handle_message_stats_eq true maxl zk gw st uid text now h]
    simp [update_user_stats, lookup_dset_self]
  · rw [handle_message_stats_eq true maxl zk gw st uid text now h,
      handle_message_stats_eq true maxl zk gw2 st uid text now h]

/-- Witness for C9: a 3-character message with maximum 0 leaves the
statistics empty; the same message with maximum 4000 installs the first
record with one translation, whichever of two different gateways is
used. -/
theorem stats_update_policy_witness :
    (handle_message true 0 true (fun _ => Except.error "x") ⟨[], []⟩ 3 "abc" 5).1.stats = [] ∧
    (handle_message true 4000 true (fun _ => Except.error "x") ⟨[], []⟩ 3 "abc" 5).1.stats.lookup 3 =
      some { translations := 1, commands := 0, first_use := 5, last_use := 5 } := by
  constructor
  · exact (stats_update_policy 0 true (fun _ => Except.error "x")
      (fun _ => Except.error "x") ⟨[], []⟩ 3 "abc" 5).1 (by decide)
  · have h := ((stats_update_policy 4000 true (fun _ => Except.error "x")
      (fun _ => Except.ok "y") ⟨[], []⟩ 3 "abc" 5).2 (by decide)).1
    simpa using h
